import Mathlib

/-!
# ConstructAI: the Aptos-TOOL adapter (`main.go`)

A shallow embedding of `handleAptosTool`, `logMCPRequest` and the transport
selection of `main`, together with the parts of the Go standard library they
call (`strconv.Quote` behind the `%q` verb, `encoding/json` decoding into
`map[string]interface{}`).

Conventions.
* Go strings are Lean `String`s (sequences of Unicode scalar values); byte
  sequences that are not valid UTF-8 are outside the model.
* Go dynamic values (`interface{}` holding decoded JSON) are the type `Json`.
  A Go `map[string]interface{}` is an association list read with
  `List.lookup`.
* Everything the handler obtains from the outside world (the HTTP exchange,
  the JSON decoder, the file system, the clock) is a field of `Env`.
* `decodeJson` is the decoder of `encoding/json` as `json.Unmarshal` applies it
  to a `map[string]interface{}`: besides the grammar of JSON it refuses
  nesting deeper than 10000 and numbers outside the range of `float64`.  The
  statements about decoded response bodies take it as the decoder.
* The handler returns its Go result together with the list of `Event`s it
  performed, in order.  The diagnostic `log.Printf` lines are not events.
-/

set_option maxRecDepth 8000
set_option exponentiation.threshold 4096

namespace ConstructAI

/-! ## Go dynamic values -/

/-- Decoded JSON as `encoding/json` stores it in an `interface{}`: `nil`,
`bool`, `float64` (kept as the lexeme it was converted from), `string`,
`[]interface{}` and `map[string]interface{}`. -/
inductive Json where
  | null : Json
  | bool (b : Bool) : Json
  | num (lit : String) : Json
  | str (s : String) : Json
  | arr (items : List Json) : Json
  | obj (members : List (String × Json)) : Json

/-- The type assertion `v.([]interface{})` on the result of a map index or a
slice element; `none` stands for `ok == false`. -/
def asArray : Option Json → Option (List Json)
  | some (Json.arr items) => some items
  | _ => none

/-- The type assertion `v.(map[string]interface{})`. -/
def asObject : Option Json → Option (List (String × Json))
  | some (Json.obj members) => some members
  | _ => none

/-- The type assertion `v.(string)`. -/
def asString : Option Json → Option String
  | some (Json.str s) => some s
  | _ => none

/-! ## `strconv.Quote`, the `%q` verb on a string -/

/-- The digit table `lowerhex` of `strconv`. -/
def lowerhex (n : Nat) : Char :=
  "0123456789abcdef".data.getD (n % 16) '0'

/-- The function `strconv.IsPrint`: decided in the code for runes up to 0xFF,
by the Unicode tables of the library (the parameter `table`) above. -/
def isPrint (table : Nat → Bool) (r : Nat) : Bool :=
  if r ≤ 0xFF then
    if 0x20 ≤ r ∧ r < 0x7F then true
    else if 0xA1 ≤ r then r != 0xAD
    else false
  else table r

/-- The function `appendEscapedRune` of `strconv` with `quote = '"'`,
`ASCIIonly = false`, `graphicOnly = false`, for a valid rune. -/
def appendEscapedRune (table : Nat → Bool) (c : Char) : List Char :=
  let r := c.toNat
  if c = '"' ∨ c = '\\' then ['\\', c]
  else if isPrint table r then [c]
  else if r = 7 then ['\\', 'a']
  else if r = 8 then ['\\', 'b']
  else if r = 12 then ['\\', 'f']
  else if r = 10 then ['\\', 'n']
  else if r = 13 then ['\\', 'r']
  else if r = 9 then ['\\', 't']
  else if r = 11 then ['\\', 'v']
  else if r < 0x20 ∨ r = 0x7F then ['\\', 'x', lowerhex (r / 16), lowerhex r]
  else if r < 0x10000 then
    ['\\', 'u', lowerhex (r / 4096), lowerhex (r / 256), lowerhex (r / 16), lowerhex r]
  else
    ['\\', 'U', lowerhex (r / 268435456), lowerhex (r / 16777216), lowerhex (r / 1048576),
      lowerhex (r / 65536), lowerhex (r / 4096), lowerhex (r / 256), lowerhex (r / 16),
      lowerhex r]

/-- The function `strconv.Quote`: a double-quoted Go string literal. -/
def quote (table : Nat → Bool) (s : String) : String :=
  String.mk ('"' :: (s.data.flatMap (appendEscapedRune table)) ++ ['"'])

/-! ## The request of `handleAptosTool` -/

/-- The variable `agentId` of `handleAptosTool`. -/
def agentId : String := "9a248a2d-89b7-402e-9e23-2112a3083c7f"

/-- The variable `apiURL` of `handleAptosTool`. -/
def apiURL : String :=
  "http://127.0.0.1:7860/api/v1/run/" ++ agentId ++ "?stream=false"

/-- The template of `reqBody` after the `%q` verb. -/
def reqBodyTail : String :=
  ",\n\t\t\"output_type\": \"chat\",\n\t\t\"input_type\": \"chat\",\n\t\t\"tweaks\": \x7b\n" ++
  "\t\t\t\"ChatInput-a18M0\": \x7b\x7d,\n" ++
  "\t\t\t\"ParseData-UWXBP\": \x7b\x7d,\n" ++
  "\t\t\t\"Prompt-zalIe\": \x7b\x7d,\n" ++
  "\t\t\t\"SplitText-9kwYE\": \x7b\x7d,\n" ++
  "\t\t\t\"ChatOutput-oFtXw\": \x7b\x7d,\n" ++
  "\t\t\t\"Directory-aGzT0\": \x7b\x7d,\n" ++
  "\t\t\t\"NVIDIAEmbeddingsComponent-sQTue\": \x7b\x7d,\n" ++
  "\t\t\t\"FAISS-SAdhf\": \x7b\x7d,\n" ++
  "\t\t\t\"NVIDIAEmbeddingsComponent-GMjQV\": \x7b\x7d,\n" ++
  "\t\t\t\"FAISS-wKFtX\": \x7b\x7d,\n" ++
  "\t\t\t\"NVIDIAModelComponent-0s6HX\": \x7b\x7d,\n" ++
  "\t\t\t\"OpenAIModel-gJpk6\": \x7b\x7d\n" ++
  "\t\t\x7d\n\t\x7d"

/-- The variable `reqBody` of `handleAptosTool`: the `fmt.Sprintf` template
with the message formatted by `%q`. -/
def reqBody (table : Nat → Bool) (message : String) : String :=
  "\x7b\n\t\t\"input_value\": " ++ quote table message ++ reqBodyTail

/-! ## `encoding/json`: decoding a document into an `interface{}` -/

/-- JSON insignificant whitespace. -/
def isSpace (c : Char) : Bool :=
  c = ' ' || c = '\t' || c = '\n' || c = '\r'

/-- Drops leading whitespace. -/
def skipSpace : List Char → List Char
  | [] => []
  | c :: cs => if isSpace c then skipSpace cs else c :: cs

/-- The value of a hexadecimal digit, either case. -/
def hexVal (c : Char) : Option Nat :=
  let n := c.toNat
  if 48 ≤ n ∧ n ≤ 57 then some (n - 48)
  else if 97 ≤ n ∧ n ≤ 102 then some (n - 87)
  else if 65 ≤ n ∧ n ≤ 70 then some (n - 55)
  else none

/-- Four hexadecimal digits, as after `\u` (`getu4` of `encoding/json`). -/
def getu4 : List Char → Option (Nat × List Char)
  | a :: b :: c :: d :: rest =>
    match hexVal a, hexVal b, hexVal c, hexVal d with
    | some a, some b, some c, some d => some (((a * 16 + b) * 16 + c) * 16 + d, rest)
    | _, _, _, _ => none
  | _ => none

/-- The character of a one-letter escape of a JSON string. -/
def simpleEscape (e : Char) : Option Char :=
  if e = '"' then some '"'
  else if e = '\\' then some '\\'
  else if e = '/' then some '/'
  else if e = 'b' then some (Char.ofNat 8)
  else if e = 'f' then some (Char.ofNat 12)
  else if e = 'n' then some '\n'
  else if e = 'r' then some '\r'
  else if e = 't' then some '\t'
  else none

/-- The low half of a surrogate pair written `\uXXXX`, if one follows. -/
def lowSurrogate (cs : List Char) : Option (Nat × List Char) :=
  match cs with
  | b :: u :: rest =>
    if b = '\\' ∧ u = 'u' then
      match getu4 rest with
      | some (lo, rest1) => if 0xDC00 ≤ lo ∧ lo < 0xE000 then some (lo, rest1) else none
      | none => none
    else none
  | _ => none

/-- Scans a JSON string after its opening quote: the decoded string and the
input after the closing quote.  An unpaired surrogate escape decodes to
U+FFFD, as in `encoding/json`. -/
def scanString : Nat → List Char → List Char → Option (String × List Char)
  | 0, _, _ => none
  | _ + 1, [], _ => none
  | fuel + 1, c :: cs, acc =>
    if c = '"' then some (String.mk acc.reverse, cs)
    else if c = '\\' then
      match cs with
      | [] => none
      | e :: rest =>
        if e = 'u' then
          match getu4 rest with
          | none => none
          | some (rr, rest1) =>
            if 0xD800 ≤ rr ∧ rr < 0xE000 then
              if rr < 0xDC00 then
                match lowSurrogate rest1 with
                | some (lo, rest2) =>
                  scanString fuel rest2
                    (Char.ofNat ((rr - 0xD800) * 1024 + (lo - 0xDC00) + 0x10000) :: acc)
                | none => scanString fuel rest1 (Char.ofNat 0xFFFD :: acc)
              else scanString fuel rest1 (Char.ofNat 0xFFFD :: acc)
            else scanString fuel rest1 (Char.ofNat rr :: acc)
        else
          match simpleEscape e with
          | some ch => scanString fuel rest (ch :: acc)
          | none => none
    else if c.toNat < 0x20 then none
    else scanString fuel cs (c :: acc)

/-- Splits off the leading decimal digits. -/
def takeDigits : List Char → List Char × List Char
  | [] => ([], [])
  | c :: cs =>
    if c.isDigit then ((takeDigits cs).1.cons c, (takeDigits cs).2) else ([], c :: cs)

/-- The integer part of a JSON number: `0`, or a nonzero digit and digits. -/
def scanInt (cs : List Char) : Option (List Char × List Char) :=
  match cs with
  | [] => none
  | c :: rest =>
    if c = '0' then some (['0'], rest)
    else if c.isDigit then some (c :: (takeDigits rest).1, (takeDigits rest).2)
    else none

/-- The digits of the optional fraction of a JSON number, without the point. -/
def scanFrac (cs : List Char) : Option (List Char × List Char) :=
  match cs with
  | c :: rest =>
    if c = '.' then
      match takeDigits rest with
      | ([], _) => none
      | (ds, rest1) => some (ds, rest1)
    else some ([], cs)
  | [] => some ([], [])

/-- The digits of an exponent, after its mark and optional sign `pre`. -/
def scanExpDigits (pre : List Char) (neg : Bool) (cs : List Char) :
    Option (List Char × Bool × List Char × List Char) :=
  match takeDigits cs with
  | ([], _) => none
  | (ds, rest) => some (pre, neg, ds, rest)

/-- The optional exponent of a JSON number: its mark and sign as written,
whether it is negative, its digits, and the rest of the input. -/
def scanExp (cs : List Char) : Option (List Char × Bool × List Char × List Char) :=
  match cs with
  | c :: rest =>
    if c = 'e' ∨ c = 'E' then
      match rest with
      | s :: rest1 =>
        if s = '+' then scanExpDigits [c, s] false rest1
        else if s = '-' then scanExpDigits [c, s] true rest1
        else scanExpDigits [c] false rest
      | [] => none
    else some ([], false, [], cs)
  | [] => some ([], false, [], [])

/-- The number written by a list of decimal digits. -/
def digitsValue (ds : List Char) : Nat :=
  ds.foldl (fun n c => 10 * n + (c.toNat - 48)) 0

/-- The exponent as `strconv` reads its digits: a digit is taken in only while
the value read so far is below 10000. -/
def expValue (ds : List Char) : Nat :=
  ds.foldl (fun e c => if e < 10000 then 10 * e + (c.toNat - 48) else e) 0

/-- The least magnitude that `strconv.ParseFloat(s, 64)` rounds to infinity:
half a unit in the last place above the largest `float64`. -/
def float64Limit : Nat := 2 ^ 1024 - 2 ^ 970

/-- Whether `strconv.ParseFloat(s, 64)` reports `ErrRange` for a JSON number
with the given integer digits, fraction digits and exponent: its magnitude,
the digits times ten to the exponent (read by `expValue`) less the number of
fraction digits, is at least `float64Limit`.  A number too small for `float64`
is read as zero without error. -/
def overflowsFloat64 (intDigits fracDigits : List Char) (expNeg : Bool)
    (expDigits : List Char) : Bool :=
  let m := digitsValue (intDigits ++ fracDigits)
  let e := expValue expDigits
  if m = 0 then false
  else if expNeg then decide (float64Limit * 10 ^ (e + fracDigits.length) ≤ m)
  else if fracDigits.length ≤ e then
    decide (float64Limit ≤ m * 10 ^ (e - fracDigits.length))
  else decide (float64Limit * 10 ^ (fracDigits.length - e) ≤ m)

/-- Scans a JSON number: its lexeme, whether its conversion to `float64`
overflows, and the rest of the input. -/
def scanNumber (cs : List Char) : Option (String × Bool × List Char) :=
  let (sign, cs1) := match cs with
    | c :: rest => if c = '-' then (['-'], rest) else ([], cs)
    | [] => ([], [])
  match scanInt cs1 with
  | none => none
  | some (i, cs2) =>
    match scanFrac cs2 with
    | none => none
    | some (f, cs3) =>
      match scanExp cs3 with
      | none => none
      | some (pre, neg, e, cs4) =>
        some (String.mk (sign ++ i ++ (if f = [] then [] else '.' :: f) ++ pre ++ e),
          overflowsFloat64 i f neg e, cs4)

/-- Removes a literal word from the front of the input. -/
def dropWord : List Char → List Char → Option (List Char)
  | [], cs => some cs
  | _ :: _, [] => none
  | w :: ws, c :: cs => if w = c then dropWord ws cs else none

/-- The constant `maxNestingDepth` of the scanner of `encoding/json`. -/
def maxNestingDepth : Nat := 10000

/-- The text of the `UnmarshalTypeError` that `convertNumber` makes for a
number lexeme outside the range of `float64`. -/
def numberRangeError (lexeme : String) : String :=
  "json: cannot unmarshal number " ++ lexeme ++ " into Go value of type float64"

/-- The method `saveError` of the decoder: the first error is kept. -/
def saveError (saved : Option String) (err : String) : Option String :=
  match saved with
  | some first => some first
  | none => some err

/-- The result of a literal word: the value if the word is there. -/
def wordResult (word : String) (v : Json) (saved : Option String) (rest : List Char) :
    Except String (Json × List Char × Option String) :=
  match dropWord word.data rest with
  | some rest1 => Except.ok (v, rest1, saved)
  | none => Except.error "invalid JSON"

mutual
/-- Parses one JSON value after optional whitespace, at the given nesting
depth (the number of arrays and objects open around it) and with the
conversion error saved so far.  The result is the value, the rest of the
input and the saved conversion error; opening an array or object beyond
`maxNestingDepth` is the error `exceeded max depth`, every other syntax error
is rendered `invalid JSON`. -/
def parseValue : Nat → Nat → Option String → List Char →
    Except String (Json × List Char × Option String)
  | 0, _, _, _ => Except.error "invalid JSON"
  | fuel + 1, depth, saved, cs =>
    match skipSpace cs with
    | [] => Except.error "invalid JSON"
    | c :: rest =>
      if c = '\x7b' then
        if maxNestingDepth ≤ depth then Except.error "exceeded max depth"
        else
          match skipSpace rest with
          | [] => Except.error "invalid JSON"
          | d :: rest1 =>
            if d = '\x7d' then Except.ok (Json.obj [], rest1, saved)
            else parseMembers fuel (depth + 1) saved (d :: rest1) []
      else if c = '[' then
        if maxNestingDepth ≤ depth then Except.error "exceeded max depth"
        else
          match skipSpace rest with
          | [] => Except.error "invalid JSON"
          | d :: rest1 =>
            if d = ']' then Except.ok (Json.arr [], rest1, saved)
            else parseElements fuel (depth + 1) saved (d :: rest1) []
      else if c = '"' then
        match scanString (rest.length + 1) rest [] with
        | some (s, rest1) => Except.ok (Json.str s, rest1, saved)
        | none => Except.error "invalid JSON"
      else if c = 't' then wordResult "rue" (Json.bool true) saved rest
      else if c = 'f' then wordResult "alse" (Json.bool false) saved rest
      else if c = 'n' then wordResult "ull" Json.null saved rest
      else
        match scanNumber (c :: rest) with
        | none => Except.error "invalid JSON"
        | some (lexeme, overflow, rest1) =>
          Except.ok (Json.num lexeme, rest1,
            if overflow then saveError saved (numberRangeError lexeme) else saved)
/-- Parses the elements of a non-empty array up to its closing bracket. -/
def parseElements : Nat → Nat → Option String → List Char → List Json →
    Except String (Json × List Char × Option String)
  | 0, _, _, _, _ => Except.error "invalid JSON"
  | fuel + 1, depth, saved, cs, acc =>
    match parseValue fuel depth saved cs with
    | Except.error err => Except.error err
    | Except.ok (v, rest, saved1) =>
      match skipSpace rest with
      | [] => Except.error "invalid JSON"
      | d :: rest1 =>
        if d = ',' then parseElements fuel depth saved1 rest1 (v :: acc)
        else if d = ']' then Except.ok (Json.arr (v :: acc).reverse, rest1, saved1)
        else Except.error "invalid JSON"
/-- Parses the members of a non-empty object up to its closing brace.  A later
member is put in front, so that of two members with one key `List.lookup`
finds the later one, as the Go map holds it. -/
def parseMembers : Nat → Nat → Option String → List Char → List (String × Json) →
    Except String (Json × List Char × Option String)
  | 0, _, _, _, _ => Except.error "invalid JSON"
  | fuel + 1, depth, saved, cs, acc =>
    match skipSpace cs with
    | [] => Except.error "invalid JSON"
    | q :: rest =>
      if q = '"' then
        match scanString (rest.length + 1) rest [] with
        | none => Except.error "invalid JSON"
        | some (k, rest1) =>
          match skipSpace rest1 with
          | [] => Except.error "invalid JSON"
          | colon :: rest2 =>
            if colon = ':' then
              match parseValue fuel depth saved rest2 with
              | Except.error err => Except.error err
              | Except.ok (v, rest3, saved1) =>
                match skipSpace rest3 with
                | [] => Except.error "invalid JSON"
                | d :: rest4 =>
                  if d = ',' then parseMembers fuel depth saved1 rest4 ((k, v) :: acc)
                  else if d = '\x7d' then Except.ok (Json.obj ((k, v) :: acc), rest4, saved1)
                  else Except.error "invalid JSON"
            else Except.error "invalid JSON"
      else Except.error "invalid JSON"
end

/-- Reads a whole body as a JSON document: one value, then only whitespace.
The result is the document as written and the first error of converting one
of its numbers to `float64`, if any; a body that is not a JSON document, or
nests deeper than `maxNestingDepth`, is an error.  The fuel bounds the nesting
of the calls of the parser; a call is made only after a character of the input
has been consumed, except the call for the first element of an array, so twice
the length of the input plus two is never exhausted.  The texts of the syntax
errors stand for those of the library. -/
def parseJson (body : String) : Except String (Json × Option String) :=
  match parseValue (2 * body.length + 2) 0 none body.data with
  | Except.error err => Except.error err
  | Except.ok (v, rest, saved) =>
    match skipSpace rest with
    | [] => Except.ok (v, saved)
    | _ :: _ => Except.error "invalid character after top-level value"

/-- What `json.Unmarshal` with a `map[string]interface{}` target makes of a
body before it looks at the kind of the document: a syntax error (which
`checkValid` finds before anything is decoded), else, for an object, the saved
error of converting one of its numbers, else the document.  The numbers of a
document that is not an object are never converted: the value is skipped. -/
def decodeJson (body : String) : Except String Json :=
  match parseJson body with
  | Except.error err => Except.error err
  | Except.ok (Json.obj _, some err) => Except.error err
  | Except.ok (v, _) => Except.ok v

/-- The statement `json.Unmarshal(body, &responseData)` with `responseData` a
`map[string]interface{}`, over a decoder of documents: an object fills the
map, `null` leaves it nil (read as empty) without error, any other document is
an `UnmarshalTypeError`. -/
def unmarshalMap (decode : String → Except String Json) (body : String) :
    Except String (List (String × Json)) :=
  match decode body with
  | Except.error err => Except.error err
  | Except.ok (Json.obj members) => Except.ok members
  | Except.ok Json.null => Except.ok []
  | Except.ok (Json.arr _) =>
    Except.error "json: cannot unmarshal array into Go value of type map[string]interface \x7b\x7d"
  | Except.ok (Json.str _) =>
    Except.error "json: cannot unmarshal string into Go value of type map[string]interface \x7b\x7d"
  | Except.ok (Json.num _) =>
    Except.error "json: cannot unmarshal number into Go value of type map[string]interface \x7b\x7d"
  | Except.ok (Json.bool _) =>
    Except.error "json: cannot unmarshal bool into Go value of type map[string]interface \x7b\x7d"

/-! ## The outside world and the events of an invocation -/

/-- What `client.Do` followed by `io.ReadAll(resp.Body)` gives. -/
inductive HttpOutcome where
  | sendError (err : String) : HttpOutcome
  | readError (status : Nat) (err : String) : HttpOutcome
  | response (status : Nat) (body : String) : HttpOutcome
  deriving DecidableEq, Repr

/-- The file system and clock as `logMCPRequest` sees them: the error of
`os.MkdirAll` and of `os.Create` if any, the two readings of `time.Now()`
already formatted, and `json.MarshalIndent`. -/
structure FsEnv where
  mkdirAll : String → Option String
  create : String → Option String
  stamp : String
  rfc3339 : String
  marshalIndent : Json → Except String String

/-- Everything `handleAptosTool` obtains from outside. -/
structure Env where
  printTable : Nat → Bool
  newRequest : String → String → String → Option String
  clientDo : String → String → String → HttpOutcome
  jsonDecode : String → Except String Json
  fs : FsEnv

/-- The observable actions of an invocation. -/
inductive Event where
  | httpNewRequest (method url body : String) : Event
  | httpDo (url contentType body : String) : Event
  | auditLog (requestData responseData : Json) (operation : String) : Event
  | mkdirAll (dir : String) : Event
  | createFile (name : String) : Event
  | writeFile (name content : String) : Event

/-- The struct `mcp.TextContent`. -/
structure TextContent where
  type : String
  text : String
  deriving DecidableEq, Repr

/-- The struct `mcp.CallToolResult`; this program only puts text items in it. -/
structure CallToolResult where
  content : List TextContent
  deriving DecidableEq, Repr

/-- The struct `mcp.CallToolRequest`: the tool name and the argument map. -/
structure CallToolRequest where
  name : String
  arguments : List (String × Json)

/-- The Go result `(*mcp.CallToolResult, error)` and the events performed. -/
structure Outcome where
  result : Except String CallToolResult
  events : List Event

/-! ## `logMCPRequest` -/

/-- The function `logMCPRequest`: its `error` result and its file-system
events.  Write errors are ignored, as in the code. -/
def logMCPRequest (fs : FsEnv) (requestData responseData : Json) (operation : String) :
    Except String Unit × List Event :=
  let logsDir := "logs"
  match fs.mkdirAll logsDir with
  | some err =>
    (Except.error ("failed to create logs directory: " ++ err), [Event.mkdirAll logsDir])
  | none =>
    let logFilename := logsDir ++ "/" ++ fs.stamp ++ ".log"
    match fs.create logFilename with
    | some err =>
      (Except.error ("failed to create log file: " ++ err),
        [Event.mkdirAll logsDir, Event.createFile logFilename])
    | none =>
      let header := "=== " ++ operation ++ " OPERATION [" ++ fs.rfc3339 ++ "] ===\n\n"
      let requestPart :=
        match fs.marshalIndent requestData with
        | Except.error err => "Error marshaling request: " ++ err ++ "\n"
        | Except.ok requestJSON => requestJSON ++ "\n\n"
      let responsePart :=
        match fs.marshalIndent responseData with
        | Except.error err => "Error marshaling response: " ++ err ++ "\n"
        | Except.ok responseJSON => responseJSON ++ "\n"
      (Except.ok (),
        [Event.mkdirAll logsDir, Event.createFile logFilename,
         Event.writeFile logFilename
           (header ++ "REQUEST:\n" ++ requestPart ++ "RESPONSE:\n" ++ responsePart)])

/-! ## `handleAptosTool` -/

/-- The chain of shape checks of `handleAptosTool` on the decoded
`responseData`: the extracted `responseText` or the error of the first check
that fails. -/
def extractText (responseData : List (String × Json)) : Except String String :=
  match asArray (responseData.lookup "outputs") with
  | none => Except.error "Invalid response format: missing outputs array"
  | some outputs =>
    if outputs.length = 0 then Except.error "Invalid response format: missing outputs array"
    else
    match asObject outputs[0]? with
    | none => Except.error "Invalid response format: outputs[0] is not an object"
    | some output0 =>
    match asArray (output0.lookup "outputs") with
    | none => Except.error "Invalid response format: missing outputs[0].outputs array"
    | some output0Outputs =>
    if output0Outputs.length = 0 then
      Except.error "Invalid response format: missing outputs[0].outputs array"
    else
    match asObject output0Outputs[0]? with
    | none => Except.error "Invalid response format: outputs[0].outputs[0] is not an object"
    | some output0Output0 =>
    match asObject (output0Output0.lookup "results") with
    | none =>
      Except.error "Invalid response format: missing outputs[0].outputs[0].results object"
    | some results =>
    match asObject (results.lookup "message") with
    | none =>
      Except.error
        "Invalid response format: missing outputs[0].outputs[0].results.message object"
    | some messageObj =>
    match asString (messageObj.lookup "text") with
    | none =>
      Except.error
        "Invalid response format: missing outputs[0].outputs[0].results.message.text field"
    | some responseText => Except.ok responseText

/-- The function `handleAptosTool`. -/
def handleAptosTool (env : Env) (request : CallToolRequest) : Outcome :=
  match asString (request.arguments.lookup "message") with
  | none => ⟨Except.error "message parameter is required and must be a string", []⟩
  | some message =>
    let body := reqBody env.printTable message
    let built := Event.httpNewRequest "POST" apiURL body
    match env.newRequest "POST" apiURL body with
    | some err => ⟨Except.error ("failed to create request: " ++ err), [built]⟩
    | none =>
      let sent := Event.httpDo apiURL "application/json" body
      match env.clientDo apiURL "application/json" body with
      | HttpOutcome.sendError err =>
        ⟨Except.error ("failed to send request: " ++ err), [built, sent]⟩
      | HttpOutcome.readError _ err =>
        ⟨Except.error ("failed to read response: " ++ err), [built, sent]⟩
      | HttpOutcome.response statusCode respBody =>
        if statusCode ≠ 200 then
          ⟨Except.error ("API returned error: " ++ respBody), [built, sent]⟩
        else
          match unmarshalMap env.jsonDecode respBody with
          | Except.error err =>
            ⟨Except.error ("Failed to parse response: " ++ err), [built, sent]⟩
          | Except.ok responseData =>
            match extractText responseData with
            | Except.error err => ⟨Except.error err, [built, sent]⟩
            | Except.ok result =>
              let response : CallToolResult := ⟨[⟨"text", result⟩]⟩
              let logData := Json.obj
                [("message", Json.str message), ("url", Json.str apiURL),
                 ("reqBody", Json.str body)]
              let logResponseData := Json.obj
                [("status", Json.num (toString statusCode)), ("content", Json.str result)]
              ⟨Except.ok response,
                [built, sent, Event.auditLog logData logResponseData "Aptos-TOOL"] ++
                  (logMCPRequest env.fs logData logResponseData "Aptos-TOOL").2⟩

/-! ## Transport selection in `main` -/

/-- What `main` ends up doing. -/
inductive Startup where
  | fatal (msg : String) : Startup
  | serveSSE (baseURL announce addr : String) : Startup
  | serveStdio : Startup
  deriving DecidableEq, Repr

/-- The function `main`: the error of the initial `os.MkdirAll` if any and the
value of the `-t`/`-transport` flag decide the transport; in sse mode the
base URL given to `server.WithBaseURL`, the line logged and the address given
to `sseServer.Start`. -/
def main (mkdirErr : Option String) (transport : String) : Startup :=
  match mkdirErr with
  | some err => Startup.fatal ("Failed to create logs directory: " ++ err)
  | none =>
    if transport = "sse" then
      Startup.serveSSE "http://localhost:8282"
        "=== SSE server starting, listening on port :8282 ===" ":8283"
    else Startup.serveStdio

/-- The default `serverURL` of `TestAptosMcpClient`. -/
def testServerURL : String := "http://localhost:8282"

/-- The text after the last colon of a URL or listen address: its port. -/
def portOf (s : String) : String :=
  String.mk ((s.data.reverse.takeWhile (fun c => c != ':')).reverse)

/-! ## The expected shape, as the specification words it -/

/-- One step down a document: a field of an object or an element of an array. -/
inductive Step where
  | key (k : String) : Step
  | index (i : Nat) : Step

/-- The child of a value one step down, if there is one. -/
def Json.child : Json → Step → Option Json
  | Json.obj members, Step.key k => members.lookup k
  | Json.arr items, Step.index i => items[i]?
  | _, _ => none

/-- The value at a path of a document, if the path exists. -/
def Json.valueAt (d : Json) : List Step → Option Json
  | [] => some d
  | st :: rest =>
    match d.child st with
    | some c => c.valueAt rest
    | none => none

/-- The path `outputs[0].outputs[0].results.message.text`. -/
def textPath : List Step :=
  [Step.key "outputs", Step.index 0, Step.key "outputs", Step.index 0,
   Step.key "results", Step.key "message", Step.key "text"]

/-- The types a segment of the expected shape may be required to have. -/
inductive Kind where
  | nonEmptyArray : Kind
  | object : Kind
  | string : Kind
  deriving DecidableEq, Repr

/-- Whether a value has the required type. -/
def Kind.holds : Kind → Json → Bool
  | Kind.nonEmptyArray, Json.arr items => 1 ≤ items.length
  | Kind.object, Json.obj _ => true
  | Kind.string, Json.str _ => true
  | _, _ => false

/-- The seven segments of the expected shape, in order. -/
inductive Segment where
  | outputs : Segment
  | outputs0 : Segment
  | outputs0Outputs : Segment
  | outputs0Outputs0 : Segment
  | results : Segment
  | message : Segment
  | text : Segment
  deriving DecidableEq, Repr

/-- The segments in the order of the path. -/
def Segment.all : List Segment :=
  [Segment.outputs, Segment.outputs0, Segment.outputs0Outputs, Segment.outputs0Outputs0,
   Segment.results, Segment.message, Segment.text]

/-- The path from the root of the document to a segment. -/
def Segment.path : Segment → List Step
  | Segment.outputs => textPath.take 1
  | Segment.outputs0 => textPath.take 2
  | Segment.outputs0Outputs => textPath.take 3
  | Segment.outputs0Outputs0 => textPath.take 4
  | Segment.results => textPath.take 5
  | Segment.message => textPath.take 6
  | Segment.text => textPath

/-- The type required at a segment: array of length at least 1, object, array
of length at least 1, object, object, object, string. -/
def Segment.kind : Segment → Kind
  | Segment.outputs => Kind.nonEmptyArray
  | Segment.outputs0 => Kind.object
  | Segment.outputs0Outputs => Kind.nonEmptyArray
  | Segment.outputs0Outputs0 => Kind.object
  | Segment.results => Kind.object
  | Segment.message => Kind.object
  | Segment.text => Kind.string

/-- A segment is present with the required type. -/
def Segment.ok (d : Json) (seg : Segment) : Bool :=
  match d.valueAt seg.path with
  | some v => seg.kind.holds v
  | none => false

/-- The first segment, in path order, that is absent or of the wrong type. -/
def firstFailure (d : Json) : Option Segment :=
  Segment.all.find? (fun seg => !seg.ok d)

/-- The error text by which `handleAptosTool` names a segment. -/
def Segment.errorText : Segment → String
  | Segment.outputs => "Invalid response format: missing outputs array"
  | Segment.outputs0 => "Invalid response format: outputs[0] is not an object"
  | Segment.outputs0Outputs => "Invalid response format: missing outputs[0].outputs array"
  | Segment.outputs0Outputs0 =>
    "Invalid response format: outputs[0].outputs[0] is not an object"
  | Segment.results =>
    "Invalid response format: missing outputs[0].outputs[0].results object"
  | Segment.message =>
    "Invalid response format: missing outputs[0].outputs[0].results.message object"
  | Segment.text =>
    "Invalid response format: missing outputs[0].outputs[0].results.message.text field"

/-! ## Vocabulary of the claims and concrete scenarios -/

/-- The remote API answers the request built for `message` with the given
status and body: `http.NewRequest` succeeds and `client.Do` with
`io.ReadAll` delivers that response. -/
def RemoteAnswers (env : Env) (message : String) (statusCode : Nat) (body : String) : Prop :=
  env.newRequest "POST" apiURL (reqBody env.printTable message) = none ∧
  env.clientDo apiURL "application/json" (reqBody env.printTable message) =
    HttpOutcome.response statusCode body

instance (env : Env) (message : String) (statusCode : Nat) (body : String) :
    Decidable (RemoteAnswers env message statusCode body) := by
  unfold RemoteAnswers
  exact inferInstance

/-- Whether an event is a call of `logMCPRequest`. -/
def Event.isAuditLog : Event → Bool
  | Event.auditLog _ _ _ => true
  | _ => false

/-- The number of calls of `logMCPRequest` during an invocation. -/
def Outcome.auditLogCalls (o : Outcome) : Nat :=
  (o.events.filter Event.isAuditLog).length

/-- A file system for the scenarios: `os.MkdirAll` fails with the given error
if any, everything else succeeds. -/
def scenarioFs (mkdirErr : Option String) : FsEnv where
  mkdirAll := fun _ => mkdirErr
  create := fun _ => none
  stamp := "20240101-120000"
  rfc3339 := "2024-01-01T12:00:00Z"
  marshalIndent := fun _ => Except.ok "\x7b\x7d"

/-- The environment of the scenarios: the remote API answers every request
with the given status and body, documents are decoded by `decodeJson`. -/
def scenarioEnv (statusCode : Nat) (body : String) (mkdirErr : Option String) : Env where
  printTable := fun _ => false
  newRequest := fun _ _ _ => none
  clientDo := fun _ _ _ => HttpOutcome.response statusCode body
  jsonDecode := decodeJson
  fs := scenarioFs mkdirErr

/-- The invocation of the concrete scenario: `message` is `"ping"`. -/
def pingRequest : CallToolRequest := ⟨"Aptos-TOOL", [("message", Json.str "ping")]⟩

/-- The document of the concrete scenario, with text `"pong"`. -/
def pongBody : String :=
  "\x7b\"outputs\":[\x7b\"outputs\":[\x7b\"results\":\x7b\"message\":\x7b\"text\":\"pong\"\x7d\x7d\x7d]\x7d]\x7d"



/-! ## JSON texts of documents -/

/-- The escape `\uXXXX` of a UTF-16 code unit. -/
def escapeUnit (n : Nat) : List Char :=
  ['\\', 'u', lowerhex (n / 4096), lowerhex (n / 256), lowerhex (n / 16), lowerhex n]

/-- One character of a string as a JSON writer puts it inside a string
literal. -/
def escapeRune (ascii : Bool) (c : Char) : List Char :=
  if c = '"' then ['\\', '"']
  else if c = '\\' then ['\\', '\\']
  else if c = '\n' then ['\\', 'n']
  else if c = '\r' then ['\\', 'r']
  else if c = '\t' then ['\\', 't']
  else if c.toNat = 8 then ['\\', 'b']
  else if c.toNat = 12 then ['\\', 'f']
  else if c.toNat < 0x20 then escapeUnit c.toNat
  else if ascii = true ∧ 0x7F < c.toNat then
    if c.toNat < 0x10000 then escapeUnit c.toNat
    else
      escapeUnit (0xD800 + (c.toNat - 0x10000) / 1024) ++
        escapeUnit (0xDC00 + (c.toNat - 0x10000) % 1024)
  else [c]


/-- The text of the minimal document before the string literal. -/
def docPrefix : String :=
  "\x7b\"outputs\":[\x7b\"outputs\":[\x7b\"results\":\x7b\"message\":\x7b\"text\":"

/-- The text of the minimal document after the string literal. -/
def docSuffix : String := "\x7d\x7d\x7d]\x7d]\x7d"

/-- The minimal document of the expected shape whose text is `s`, as a JSON
writer serialises it: `s` is written as a string literal, character by
character with `escapeRune`. -/
def validDoc (ascii : Bool) (s : String) : String :=
  String.mk (docPrefix.data ++ '"' :: (s.data.flatMap (escapeRune ascii) ++ '"' :: docSuffix.data))

/-- The value of the minimal document with text `s`. -/
def textDoc (s : String) : Json :=
  Json.obj [("outputs", Json.arr [Json.obj [("outputs", Json.arr [Json.obj
    [("results", Json.obj [("message", Json.obj [("text", Json.str s)])])]])]])]


/-- The array `outputs` of the concrete scenario, with text `"pong"`. -/
def pongOutputs : Json :=
  Json.arr [Json.obj [("outputs", Json.arr [Json.obj
    [("results", Json.obj [("message", Json.obj [("text", Json.str "pong")])])]])]]

/-- The document of the expected shape whose `text` is the number 7. -/
def textNumberBody : String :=
  "\x7b\"outputs\":[\x7b\"outputs\":[\x7b\"results\":\x7b\"message\":\x7b\"text\":7\x7d\x7d\x7d]\x7d]\x7d"

/-- The document of the concrete scenario with one more field, a number
outside the range of `float64`. -/
def overflowPongBody : String :=
  "\x7b\"id\":1e999,\"outputs\":[\x7b\"outputs\":[\x7b\"results\":\x7b\"message\":\x7b\"text\":\"pong\"\x7d\x7d\x7d]\x7d]\x7d"

/-- The document of the concrete scenario with a number outside the range of
`float64` beside `results`. -/
def deepOverflowBody : String :=
  "\x7b\"outputs\":[\x7b\"outputs\":[\x7b\"results\":\x7b\"message\":\x7b\"text\":\"pong\"\x7d\x7d,\"score\":-2.5E+400\x7d]\x7d]\x7d"

/-! ## Shared lemmas -/

theorem extractText_spec (m : List (String × Json)) :
    extractText m =
      match firstFailure (Json.obj m) with
      | some seg => Except.error seg.errorText
      | none =>
        match (Json.obj m).valueAt textPath with
        | some (Json.str s) => Except.ok s
        | _ => Except.error "" := by
  unfold extractText firstFailure
  simp only [Segment.all, List.find?, Segment.ok, Segment.path, textPath, List.take,
    Json.valueAt, Json.child, Segment.kind, Segment.errorText]
  cases h1 : m.lookup "outputs" with
  | none => simp [asArray]
  | some v1 =>
    cases v1 <;> simp [asArray, Kind.holds]
    rename_i items
    cases items with
    | nil => simp
    | cons v2 rest2 =>
      cases v2 <;> simp [asArray, asObject, Kind.holds]
      rename_i m2
      cases h3 : m2.lookup "outputs" with
      | none => simp
      | some v3 =>
        cases v3 <;> simp [asArray, asObject, Kind.holds]
        rename_i items3
        cases items3 with
        | nil => simp
        | cons v4 rest4 =>
          cases v4 <;> simp [asArray, asObject, Kind.holds]
          rename_i m4
          cases h5 : m4.lookup "results" with
          | none => simp
          | some v5 =>
            cases v5 <;> simp [asArray, asObject, Kind.holds]
            rename_i m5
            cases h6 : m5.lookup "message" with
            | none => simp
            | some v6 =>
              cases v6 <;> simp [asArray, asObject, Kind.holds]
              rename_i m6
              cases h7 : m6.lookup "text" with
              | none => simp [asString]
              | some v7 =>
                cases v7 <;> simp [asArray, asObject, asString, Kind.holds]

theorem handleAptosTool_of_answer (env : Env) (request : CallToolRequest)
    (message body : String) (statusCode : Nat)
    (hmsg : request.arguments.lookup "message" = some (Json.str message))
    (hans : RemoteAnswers env message statusCode body) :
    (handleAptosTool env request).result =
      if statusCode ≠ 200 then Except.error ("API returned error: " ++ body)
      else
        match unmarshalMap env.jsonDecode body with
        | Except.error err => Except.error ("Failed to parse response: " ++ err)
        | Except.ok responseData =>
          match extractText responseData with
          | Except.error err => Except.error err
          | Except.ok result => Except.ok ⟨[⟨"text", result⟩]⟩ := by
  obtain ⟨hnew, hdo⟩ := hans
  simp only [handleAptosTool, hmsg, asString, hnew, hdo]
  by_cases hst : statusCode = 200
  · simp only [hst, ne_eq, not_true_eq_false, if_false]
    cases unmarshalMap env.jsonDecode body with
    | error err => rfl
    | ok responseData =>
      simp only []
      cases extractText responseData <;> rfl
  · simp [hst]

theorem firstFailure_none_of_text (d : Json) (s : String)
    (h : d.valueAt textPath = some (Json.str s)) : firstFailure d = none := by
  unfold firstFailure
  simp only [Segment.all, List.find?, Segment.ok, Segment.path, textPath, List.take,
    Json.valueAt, Json.child, Segment.kind] at h ⊢
  cases d <;> simp at h
  rename_i m
  cases h1 : m.lookup "outputs" with
  | none => simp [h1] at h
  | some v1 =>
    cases v1 <;> simp [h1] at h
    rename_i items
    cases items with
    | nil => simp at h
    | cons v2 rest2 =>
      cases v2 <;> simp at h
      rename_i m2
      cases h3 : m2.lookup "outputs" with
      | none => simp [h3] at h
      | some v3 =>
        cases v3 <;> simp [h3] at h
        rename_i items3
        cases items3 with
        | nil => simp at h
        | cons v4 rest4 =>
          cases v4 <;> simp at h
          rename_i m4
          cases h5 : m4.lookup "results" with
          | none => simp [h5] at h
          | some v5 =>
            cases v5 <;> simp [h5] at h
            rename_i m5
            cases h6 : m5.lookup "message" with
            | none => simp [h6] at h
            | some v6 =>
              cases v6 <;> simp [h6] at h
              rename_i m6
              simp [h1, h3, h5, h6, h, Kind.holds]

theorem extractText_of_text (m : List (String × Json)) (s : String)
    (h : (Json.obj m).valueAt textPath = some (Json.str s)) : extractText m = Except.ok s := by
  rw [extractText_spec, firstFailure_none_of_text _ s h, h]

theorem extractText_of_failure (m : List (String × Json)) (seg : Segment)
    (h : firstFailure (Json.obj m) = some seg) :
    extractText m = Except.error seg.errorText := by
  rw [extractText_spec, h]

theorem logMCPRequest_no_auditLog (fs : FsEnv) (requestData responseData : Json)
    (operation : String) :
    (logMCPRequest fs requestData responseData operation).2.filter Event.isAuditLog = [] := by
  unfold logMCPRequest
  dsimp only
  split
  · rfl
  · split <;> rfl

theorem errorText_injective (a b : Segment) (h : a.errorText = b.errorText) : a = b := by
  cases a <;> cases b <;> first | rfl | exact absurd h (by decide)

theorem errorText_ne_parse_error (seg : Segment) (err : String) :
    seg.errorText ≠ "Failed to parse response: " ++ err := by
  intro h
  have h2 := congrArg (fun t => t.data.head?) h
  cases seg <;> simp [Segment.errorText, String.data_append] at h2

theorem hexVal_lowerhex (n : Nat) : hexVal (lowerhex n) = some (n % 16) := by
  unfold lowerhex
  have h : n % 16 < 16 := Nat.mod_lt _ (by decide)
  generalize n % 16 = j at h
  interval_cases j <;> rfl

theorem getu4_escape (n : Nat) (hn : n < 65536) (rest : List Char) :
    getu4 (lowerhex (n / 4096) :: lowerhex (n / 256) :: lowerhex (n / 16) :: lowerhex n :: rest)
      = some (n, rest) := by
  simp only [getu4, hexVal_lowerhex]
  congr 2
  omega

theorem scanString_close (fuel : Nat) (cs acc : List Char) :
    scanString (fuel + 1) ('"' :: cs) acc = some (String.mk acc.reverse, cs) := by
  simp [scanString]

theorem scanString_raw (c : Char) (h1 : c ≠ '"') (h2 : c ≠ '\\') (h3 : ¬ c.toNat < 0x20)
    (fuel : Nat) (cs acc : List Char) :
    scanString (fuel + 1) (c :: cs) acc = scanString fuel cs (c :: acc) := by
  simp [scanString, h1, h2, h3]

theorem scanString_simple (e ch : Char) (h1 : e ≠ 'u') (h2 : simpleEscape e = some ch)
    (fuel : Nat) (cs acc : List Char) :
    scanString (fuel + 1) ('\\' :: e :: cs) acc = scanString fuel cs (ch :: acc) := by
  simp [scanString, h1, h2]

theorem scanString_u (fuel : Nat) (cs acc : List Char) :
    scanString (fuel + 1) ('\\' :: 'u' :: cs) acc =
      match getu4 cs with
      | none => none
      | some (rr, rest1) =>
        if 0xD800 ≤ rr ∧ rr < 0xE000 then
          if rr < 0xDC00 then
            match lowSurrogate rest1 with
            | some (lo, rest2) =>
              scanString fuel rest2
                (Char.ofNat ((rr - 0xD800) * 1024 + (lo - 0xDC00) + 0x10000) :: acc)
            | none => scanString fuel rest1 (Char.ofNat 0xFFFD :: acc)
          else scanString fuel rest1 (Char.ofNat 0xFFFD :: acc)
        else scanString fuel rest1 (Char.ofNat rr :: acc) := by
  simp [scanString]

theorem scanString_unit (n : Nat) (hn : n < 65536) (hs : ¬ (0xD800 ≤ n ∧ n < 0xE000))
    (fuel : Nat) (rest acc : List Char) :
    scanString (fuel + 1) (escapeUnit n ++ rest) acc =
      scanString fuel rest (Char.ofNat n :: acc) := by
  show scanString (fuel + 1) ('\\' :: 'u' :: lowerhex (n / 4096) :: lowerhex (n / 256) ::
    lowerhex (n / 16) :: lowerhex n :: rest) acc = _
  rw [scanString_u, getu4_escape n hn]
  simp only [hs, if_false]

theorem scanString_pair (hi lo : Nat) (hhi : 0xD800 ≤ hi ∧ hi < 0xDC00)
    (hlo : 0xDC00 ≤ lo ∧ lo < 0xE000) (fuel : Nat) (rest acc : List Char) :
    scanString (fuel + 1) (escapeUnit hi ++ (escapeUnit lo ++ rest)) acc =
      scanString fuel rest
        (Char.ofNat ((hi - 0xD800) * 1024 + (lo - 0xDC00) + 0x10000) :: acc) := by
  show scanString (fuel + 1) ('\\' :: 'u' :: lowerhex (hi / 4096) :: lowerhex (hi / 256) ::
    lowerhex (hi / 16) :: lowerhex hi :: ('\\' :: 'u' :: lowerhex (lo / 4096) ::
    lowerhex (lo / 256) :: lowerhex (lo / 16) :: lowerhex lo :: rest)) acc = _
  rw [scanString_u, getu4_escape hi (by omega)]
  have h1 : 0xD800 ≤ hi ∧ hi < 0xE000 := ⟨hhi.1, by omega⟩
  simp only [h1, hhi.2, and_self, if_true, lowSurrogate, getu4_escape lo (by omega), hlo]

theorem scanString_escapeRune (ascii : Bool) (c : Char) (fuel : Nat) (rest acc : List Char) :
    scanString (fuel + 1) (escapeRune ascii c ++ rest) acc = scanString fuel rest (c :: acc) := by
  have hv : c.toNat < 0xD800 ∨ (0xDFFF < c.toNat ∧ c.toNat < 0x110000) := c.valid
  have hc : Char.ofNat c.toNat = c := Char.ofNat_toNat c
  unfold escapeRune
  split
  · next h => subst h; exact scanString_simple '"' '"' (by decide) (by rfl) fuel rest acc
  split
  · next h => subst h; exact scanString_simple '\\' '\\' (by decide) (by rfl) fuel rest acc
  split
  · next h => subst h; exact scanString_simple 'n' '\n' (by decide) (by rfl) fuel rest acc
  split
  · next h => subst h; exact scanString_simple 'r' '\r' (by decide) (by rfl) fuel rest acc
  split
  · next h => subst h; exact scanString_simple 't' '\t' (by decide) (by rfl) fuel rest acc
  split
  · next h =>
    rw [← hc, h]
    exact scanString_simple 'b' (Char.ofNat 8) (by decide) (by rfl) fuel rest acc
  split
  · next h =>
    rw [← hc, h]
    exact scanString_simple 'f' (Char.ofNat 12) (by decide) (by rfl) fuel rest acc
  split
  · next h =>
    rw [scanString_unit c.toNat (by omega) (by omega), hc]
  split
  · split
    · next h =>
      rw [scanString_unit c.toNat h (by omega), hc]
    · next h =>
      rw [List.append_assoc, scanString_pair _ _ (by omega) (by omega)]
      have e : (0xD800 + (c.toNat - 0x10000) / 1024 - 0xD800) * 1024 +
          (0xDC00 + (c.toNat - 0x10000) % 1024 - 0xDC00) + 0x10000 = c.toNat := by omega
      rw [e, hc]
  · next h1 h2 h3 h4 h5 h6 h7 h8 h9 =>
    exact scanString_raw c h1 h2 h8 fuel rest acc

theorem scanString_quoted (ascii : Bool) (l : List Char) :
    ∀ (fuel : Nat) (rest acc : List Char), l.length < fuel →
      scanString fuel (l.flatMap (escapeRune ascii) ++ '"' :: rest) acc =
        some (String.mk (acc.reverse ++ l), rest) := by
  induction l with
  | nil =>
    intro fuel rest acc h
    obtain ⟨k, rfl⟩ : ∃ k, fuel = k + 1 := ⟨fuel - 1, by simp at h; omega⟩
    simpa using scanString_close k rest acc
  | cons c l ih =>
    intro fuel rest acc h
    obtain ⟨k, rfl⟩ : ∃ k, fuel = k + 1 := ⟨fuel - 1, by omega⟩
    rw [List.flatMap_cons, List.append_assoc, scanString_escapeRune,
      ih k rest (c :: acc) (by simpa using h)]
    simp

theorem length_le_flatMap_escapeRune (ascii : Bool) (l : List Char) :
    l.length ≤ (l.flatMap (escapeRune ascii)).length := by
  induction l with
  | nil => simp
  | cons c l ih =>
    have h0 : escapeRune ascii c ≠ [] := by
      intro h
      have key := scanString_escapeRune ascii c 0 ['"'] []
      rw [h] at key
      simp [scanString] at key
    have h : 1 ≤ (escapeRune ascii c).length := List.length_pos.mpr h0
    simp only [List.flatMap_cons, List.length_append, List.length_cons]
    omega

theorem parseValue_string (ascii : Bool) (l : List Char) (fuel depth : Nat)
    (saved : Option String) (rest : List Char) :
    parseValue (fuel + 1) depth saved ('"' :: (l.flatMap (escapeRune ascii) ++ '"' :: rest)) =
      Except.ok (Json.str (String.mk l), rest, saved) := by
  have hlen := length_le_flatMap_escapeRune ascii l
  have hs := scanString_quoted ascii l
    ((l.flatMap (escapeRune ascii) ++ '"' :: rest).length + 1) rest []
    (by simp only [List.length_append, List.length_cons]; omega)
  simp [-List.length_append, -List.length_cons, -List.length_flatMap, parseValue, skipSpace, isSpace, hs]

theorem parseValue_object1 (l : List Char) (fuel depth : Nat) (saved saved1 : Option String)
    (rest rest1 : List Char) (v : Json) (hd : depth < maxNestingDepth)
    (hv : parseValue fuel (depth + 1) saved rest = Except.ok (v, '\x7d' :: rest1, saved1)) :
    parseValue (fuel + 2) depth saved
        ('\x7b' :: '"' :: (l.flatMap (escapeRune false) ++ '"' :: ':' :: rest)) =
      Except.ok (Json.obj [(String.mk l, v)], rest1, saved1) := by
  have hlen := length_le_flatMap_escapeRune false l
  have hs := scanString_quoted false l
    ((l.flatMap (escapeRune false) ++ '"' :: ':' :: rest).length + 1) (':' :: rest) []
    (by simp only [List.length_append, List.length_cons]; omega)
  have hd2 : ¬ maxNestingDepth ≤ depth := by omega
  simp [-List.length_append, -List.length_cons, -List.length_flatMap, parseValue, parseMembers, skipSpace, isSpace, hs, hv, hd2]

theorem parseValue_array1 (fuel depth : Nat) (saved saved1 : Option String)
    (rest rest1 : List Char) (v : Json) (hd : depth < maxNestingDepth)
    (hv : parseValue fuel (depth + 1) saved ('\x7b' :: rest) =
      Except.ok (v, ']' :: rest1, saved1)) :
    parseValue (fuel + 2) depth saved ('[' :: '\x7b' :: rest) =
      Except.ok (Json.arr [v], rest1, saved1) := by
  have hd2 : ¬ maxNestingDepth ≤ depth := by omega
  simp [parseValue, parseElements, skipSpace, isSpace, hv, hd2]

theorem parseValue_validDoc (ascii : Bool) (s : String) (k : Nat) :
    parseValue (k + 15) 0 none (validDoc ascii s).data = Except.ok (textDoc s, [], none) := by
  have h7 := parseValue_string ascii s.data k 7 none
    ['\x7d', '\x7d', '\x7d', ']', '\x7d', ']', '\x7d']
  have h6 := parseValue_object1 "text".data (k + 1) 6 none none _ _ _ (by decide) h7
  have h5 := parseValue_object1 "message".data (k + 3) 5 none none _ _ _ (by decide) h6
  have h4 := parseValue_object1 "results".data (k + 5) 4 none none _ _ _ (by decide) h5
  have h3 := parseValue_array1 (k + 7) 3 none none _ _ _ (by decide) h4
  have h2 := parseValue_object1 "outputs".data (k + 9) 2 none none _ _ _ (by decide) h3
  have h1 := parseValue_array1 (k + 11) 1 none none _ _ _ (by decide) h2
  exact parseValue_object1 "outputs".data (k + 13) 0 none none _ _ _ (by decide) h1

theorem decodeJson_validDoc (ascii : Bool) (s : String) :
    decodeJson (validDoc ascii s) = Except.ok (textDoc s) := by
  have hlen : 15 ≤ 2 * (validDoc ascii s).length + 2 := by
    have : (validDoc ascii s).length =
        (docPrefix.data ++ '"' :: (s.data.flatMap (escapeRune ascii) ++
          '"' :: docSuffix.data)).length := rfl
    rw [this, List.length_append]
    have : 10 ≤ docPrefix.data.length := by decide
    omega
  obtain ⟨k, hk⟩ : ∃ k, 2 * (validDoc ascii s).length + 2 = k + 15 :=
    ⟨2 * (validDoc ascii s).length + 2 - 15, by omega⟩
  simp [decodeJson, parseJson, hk, parseValue_validDoc, skipSpace, textDoc]

theorem reqBody_ping_is_json (table : Nat → Bool) :
    ∃ members, decodeJson (reqBody table "ping") = Except.ok (Json.obj members) ∧
      members.lookup "input_value" = some (Json.str "ping") :=
  ⟨_, rfl, rfl⟩

/-! ## The claims -/

/-- C1 counterexample: the body of the concrete scenario with the extra field
`"id":1e999` is a JSON document whose value at the text path is `"pong"`, and
with status 200 the handler fails with the JSON-parse error, since the number
does not fit a `float64`. -/
theorem handleAptosTool_overflow_document :
    parseJson overflowPongBody =
      Except.ok (Json.obj [("outputs", pongOutputs), ("id", Json.num "1e999")],
        some "json: cannot unmarshal number 1e999 into Go value of type float64") ∧
    (Json.obj [("outputs", pongOutputs), ("id", Json.num "1e999")]).valueAt textPath =
      some (Json.str "pong") ∧
    (handleAptosTool (scenarioEnv 200 overflowPongBody none) pingRequest).result =
      Except.error ("Failed to parse response: " ++
        "json: cannot unmarshal number 1e999 into Go value of type float64") :=
  ⟨rfl, rfl, rfl⟩

/-- C1 amended: with `encoding/json` as the decoder, for every string `s`,
when the remote API answers 200 with a body that `json.Unmarshal` decodes
without error into a document whose value at
`outputs[0].outputs[0].results.message.text` is the string `s`, the handler
succeeds and its result holds exactly one text content item, whose text is
`s` unchanged; and the minimal document of that shape in which `s` is written
as a JSON string literal, escaped either way, is such a body. -/
theorem handleAptosTool_text_roundtrip (env : Env) (request : CallToolRequest)
    (message s : String)
    (hmsg : request.arguments.lookup "message" = some (Json.str message))
    (hdecoder : env.jsonDecode = decodeJson) :
    (∀ (body : String) (doc : Json), RemoteAnswers env message 200 body →
      decodeJson body = Except.ok doc → doc.valueAt textPath = some (Json.str s) →
      (handleAptosTool env request).result = Except.ok ⟨[⟨"text", s⟩]⟩) ∧
    (∀ ascii : Bool, RemoteAnswers env message 200 (validDoc ascii s) →
      (handleAptosTool env request).result = Except.ok ⟨[⟨"text", s⟩]⟩) := by
  have general : ∀ (body : String) (doc : Json), RemoteAnswers env message 200 body →
      decodeJson body = Except.ok doc → doc.valueAt textPath = some (Json.str s) →
      (handleAptosTool env request).result = Except.ok ⟨[⟨"text", s⟩]⟩ := by
    intro body doc hans hdec htext
    rw [handleAptosTool_of_answer env request message body 200 hmsg hans, hdecoder]
    cases doc with
    | obj members =>
      simp [unmarshalMap, hdec, extractText_of_text members s htext]
    | _ => simp [textPath, Json.valueAt, Json.child] at htext
  exact ⟨general, fun ascii hans =>
    general (validDoc ascii s) (textDoc s) hans (decodeJson_validDoc ascii s) rfl⟩

/-- C1 amended, witness: the concrete scenario (`"pong"`); a text with a quote,
a backslash, a newline, a control character, a letter outside ASCII and a
character outside the basic plane, written with `\u` escapes and surrogate
pairs; the empty string. -/
theorem handleAptosTool_text_roundtrip_witness :
    (handleAptosTool (scenarioEnv 200 pongBody none) pingRequest).result =
        Except.ok ⟨[⟨"text", "pong"⟩]⟩ ∧
    validDoc true "a\"\\\n\x01é😀" =
        docPrefix ++ "\"a\\\"\\\\\\n\\u0001\\u00e9\\ud83d\\ude00\"" ++ docSuffix ∧
    (handleAptosTool (scenarioEnv 200 (validDoc true "a\"\\\n\x01é😀") none)
        pingRequest).result = Except.ok ⟨[⟨"text", "a\"\\\n\x01é😀"⟩]⟩ ∧
    (handleAptosTool (scenarioEnv 200 (validDoc false "") none) pingRequest).result =
        Except.ok ⟨[⟨"text", ""⟩]⟩ :=
  ⟨(handleAptosTool_text_roundtrip (scenarioEnv 200 pongBody none) pingRequest "ping" "pong"
      rfl rfl).1 pongBody (textDoc "pong") ⟨rfl, rfl⟩ rfl rfl,
   by decide,
   (handleAptosTool_text_roundtrip (scenarioEnv 200 (validDoc true "a\"\\\n\x01é😀") none)
      pingRequest "ping" "a\"\\\n\x01é😀" rfl rfl).2 true ⟨rfl, rfl⟩,
   (handleAptosTool_text_roundtrip (scenarioEnv 200 (validDoc false "") none)
      pingRequest "ping" "" rfl rfl).2 false ⟨rfl, rfl⟩⟩

/-- C2: at the message consisting of the bell character U+0007 the request
body built with `%q` holds the Go escape `\a` in its `input_value` literal,
and the JSON decoder rejects the body, with whatever fuel: it is not a valid
JSON document. -/
theorem reqBody_bell_not_json (table : Nat → Bool) :
    reqBody table "\x07" = "\x7b\n\t\t\"input_value\": \"\\a\"" ++ reqBodyTail ∧
    decodeJson (reqBody table "\x07") = Except.error "invalid JSON" ∧
    ∀ fuel : Nat,
      parseValue fuel 0 none (reqBody table "\x07").data = Except.error "invalid JSON" :=
  ⟨rfl, rfl, fun fuel =>
    match fuel with
    | 0 => rfl
    | 1 => rfl
    | 2 => rfl
    | _ + 3 => rfl⟩

/-- C3 counterexample: status 500 and status 404 with the same body
`internal error` fail with the very same error, which therefore does not
carry the status code. -/
theorem handleAptosTool_error_without_status :
    (handleAptosTool (scenarioEnv 500 "internal error" none) pingRequest).result =
        Except.error "API returned error: internal error" ∧
    (handleAptosTool (scenarioEnv 404 "internal error" none) pingRequest).result =
        Except.error "API returned error: internal error" :=
  ⟨rfl, rfl⟩

/-- C3 amended: for every response whose status is not 200 the handler fails
with the error `API returned error: ` followed by the raw body verbatim (the
status code is not in it); the body is never decoded, so the outcome is the
same under every JSON decoder; the only events are building and sending the
request. -/
theorem handleAptosTool_non200 (env : Env) (request : CallToolRequest)
    (message body : String) (statusCode : Nat)
    (hmsg : request.arguments.lookup "message" = some (Json.str message))
    (hans : RemoteAnswers env message statusCode body)
    (hst : statusCode ≠ 200) :
    (handleAptosTool env request).result = Except.error ("API returned error: " ++ body) ∧
    (handleAptosTool env request).events =
      [Event.httpNewRequest "POST" apiURL (reqBody env.printTable message),
       Event.httpDo apiURL "application/json" (reqBody env.printTable message)] ∧
    ∀ decode : String → Except String Json,
      (handleAptosTool { env with jsonDecode := decode } request).result =
        (handleAptosTool env request).result := by
  obtain ⟨hnew, hdo⟩ := hans
  refine ⟨?_, ?_, ?_⟩
  · simp [handleAptosTool, hmsg, asString, hnew, hdo, hst]
  · simp [handleAptosTool, hmsg, asString, hnew, hdo, hst]
  · intro decode
    simp [handleAptosTool, hmsg, asString, hnew, hdo, hst]

/-- C3 amended, witness: status 500 with body `internal error`, which is not
valid JSON. -/
theorem handleAptosTool_non200_witness :
    (handleAptosTool (scenarioEnv 500 "internal error" none) pingRequest).result =
        Except.error ("API returned error: " ++ "internal error") ∧
    (handleAptosTool (scenarioEnv 500 "internal error" none) pingRequest).events =
      [Event.httpNewRequest "POST" apiURL (reqBody (fun _ => false) "ping"),
       Event.httpDo apiURL "application/json" (reqBody (fun _ => false) "ping")] ∧
    ∀ decode : String → Except String Json,
      (handleAptosTool { scenarioEnv 500 "internal error" none with jsonDecode := decode }
          pingRequest).result =
        (handleAptosTool (scenarioEnv 500 "internal error" none) pingRequest).result :=
  handleAptosTool_non200 (scenarioEnv 500 "internal error" none) pingRequest "ping"
    "internal error" 500 rfl ⟨rfl, rfl⟩ (by decide)

/-- C4 counterexample: the body `[]` is a JSON document without `outputs`,
and with status 200 the handler fails with the JSON-parse error, not with the
missing-outputs error. -/
theorem handleAptosTool_array_document :
    decodeJson "[]" = Except.ok (Json.arr []) ∧
    (Json.arr []).child (Step.key "outputs") = none ∧
    (handleAptosTool (scenarioEnv 200 "[]" none) pingRequest).result =
      Except.error ("Failed to parse response: " ++
        "json: cannot unmarshal array into Go value of type map[string]interface \x7b\x7d") ∧
    (handleAptosTool (scenarioEnv 200 "[]" none) pingRequest).result ≠
      Except.error "Invalid response format: missing outputs array" :=
  ⟨rfl, rfl, rfl, fun h =>
    have h2 : (Except.error ("Failed to parse response: " ++
        "json: cannot unmarshal array into Go value of type map[string]interface \x7b\x7d") :
        Except String CallToolResult) =
        Except.error "Invalid response format: missing outputs array" := h
    absurd (Except.error.inj h2) (by decide)⟩

/-- C4 amended: with `encoding/json` as the decoder, for any body returned
with status 200 that `json.Unmarshal` decodes without error and that is a
JSON object, or the document `null`, missing `outputs` or whose `outputs` is
an empty array, the handler fails with the error
`Invalid response format: missing outputs array`. -/
theorem handleAptosTool_missing_outputs (env : Env) (request : CallToolRequest)
    (message body : String) (doc : Json)
    (hmsg : request.arguments.lookup "message" = some (Json.str message))
    (hdecoder : env.jsonDecode = decodeJson)
    (hans : RemoteAnswers env message 200 body)
    (hdec : decodeJson body = Except.ok doc)
    (hobj : doc = Json.null ∨ ∃ members, doc = Json.obj members)
    (hout : doc.child (Step.key "outputs") = none ∨
      doc.child (Step.key "outputs") = some (Json.arr [])) :
    (handleAptosTool env request).result =
      Except.error "Invalid response format: missing outputs array" := by
  rw [handleAptosTool_of_answer env request message body 200 hmsg hans, hdecoder]
  rcases hobj with rfl | ⟨members, rfl⟩
  · simp [unmarshalMap, hdec, extractText, asArray]
  · rcases hout with h | h <;>
      simp only [Json.child] at h <;>
      simp [unmarshalMap, hdec, extractText, asArray, h]

/-- C4 amended, witness: the documents `null`, an object without `outputs`
and an object whose `outputs` is `[]`; and the object `{"id": 1e999}`
without `outputs`, which `json.Unmarshal` does not decode, fails with the
JSON-parse error. -/
theorem handleAptosTool_missing_outputs_witness :
    (handleAptosTool (scenarioEnv 200 "null" none) pingRequest).result =
        Except.error "Invalid response format: missing outputs array" ∧
    (handleAptosTool (scenarioEnv 200 "\x7b\"result\": 1\x7d" none) pingRequest).result =
        Except.error "Invalid response format: missing outputs array" ∧
    (handleAptosTool (scenarioEnv 200 "\x7b\"outputs\": []\x7d" none) pingRequest).result =
        Except.error "Invalid response format: missing outputs array" ∧
    (handleAptosTool (scenarioEnv 200 "\x7b\"id\": 1e999\x7d" none) pingRequest).result =
        Except.error ("Failed to parse response: " ++
          "json: cannot unmarshal number 1e999 into Go value of type float64") :=
  ⟨handleAptosTool_missing_outputs _ pingRequest "ping" "null" Json.null rfl rfl ⟨rfl, rfl⟩ rfl
      (Or.inl rfl) (Or.inl rfl),
   handleAptosTool_missing_outputs _ pingRequest "ping" _
      (Json.obj [("result", Json.num "1")]) rfl rfl ⟨rfl, rfl⟩ rfl
      (Or.inr ⟨_, rfl⟩) (Or.inl rfl),
   handleAptosTool_missing_outputs _ pingRequest "ping" _
      (Json.obj [("outputs", Json.arr [])]) rfl rfl ⟨rfl, rfl⟩ rfl
      (Or.inr ⟨_, rfl⟩) (Or.inr rfl),
   rfl⟩

/-- C5 counterexample: in the JSON object `{"outputs": 1e999}` the first
segment of the wrong type is `outputs`, and with status 200 the handler fails
with the JSON-parse error, not with the text naming `outputs`. -/
theorem handleAptosTool_overflow_outputs :
    parseJson "\x7b\"outputs\": 1e999\x7d" =
      Except.ok (Json.obj [("outputs", Json.num "1e999")],
        some "json: cannot unmarshal number 1e999 into Go value of type float64") ∧
    firstFailure (Json.obj [("outputs", Json.num "1e999")]) = some Segment.outputs ∧
    (handleAptosTool (scenarioEnv 200 "\x7b\"outputs\": 1e999\x7d" none) pingRequest).result =
      Except.error ("Failed to parse response: " ++
        "json: cannot unmarshal number 1e999 into Go value of type float64") :=
  ⟨rfl, rfl, rfl⟩

/-- C5 amended: with `encoding/json` as the decoder, for every body returned
with status 200 that `json.Unmarshal` decodes without error into a JSON object
that does not match the expected shape, the error of the handler is the text
naming the first segment of the path that is absent or of the wrong type; two
different segments never have the same text, and no segment text is a
JSON-parse error. -/
theorem handleAptosTool_names_first_failure (env : Env) (request : CallToolRequest)
    (message body : String) (members : List (String × Json)) (seg : Segment)
    (hmsg : request.arguments.lookup "message" = some (Json.str message))
    (hdecoder : env.jsonDecode = decodeJson)
    (hans : RemoteAnswers env message 200 body)
    (hdec : decodeJson body = Except.ok (Json.obj members))
    (hfail : firstFailure (Json.obj members) = some seg) :
    (handleAptosTool env request).result = Except.error seg.errorText ∧
    (∀ other : Segment, other.errorText = seg.errorText → other = seg) ∧
    (∀ err : String, seg.errorText ≠ "Failed to parse response: " ++ err) := by
  refine ⟨?_, fun other h => errorText_injective other seg h, errorText_ne_parse_error seg⟩
  rw [handleAptosTool_of_answer env request message body 200 hmsg hans, hdecoder]
  simp [unmarshalMap, hdec, extractText_of_failure members seg hfail]

/-- C5 amended, witness: in the document whose `outputs[0]` is the number 5
the first failing segment is `outputs[0]`; in the document whose text is the
number 7 it is `text`. -/
theorem handleAptosTool_names_first_failure_witness :
    firstFailure (Json.obj [("outputs", Json.arr [Json.num "5"])]) = some Segment.outputs0 ∧
    (handleAptosTool (scenarioEnv 200 "\x7b\"outputs\": [5]\x7d" none) pingRequest).result =
      Except.error "Invalid response format: outputs[0] is not an object" ∧
    (handleAptosTool (scenarioEnv 200 textNumberBody none) pingRequest).result =
      Except.error
        "Invalid response format: missing outputs[0].outputs[0].results.message.text field" :=
  ⟨rfl,
   (handleAptosTool_names_first_failure (scenarioEnv 200 "\x7b\"outputs\": [5]\x7d" none)
      pingRequest "ping" "\x7b\"outputs\": [5]\x7d" [("outputs", Json.arr [Json.num "5"])]
      Segment.outputs0 rfl rfl ⟨rfl, rfl⟩ rfl rfl).1,
   (handleAptosTool_names_first_failure (scenarioEnv 200 textNumberBody none) pingRequest
      "ping" textNumberBody
      [("outputs", Json.arr [Json.obj [("outputs", Json.arr [Json.obj
        [("results", Json.obj [("message", Json.obj [("text", Json.num "7")])])]])]])]
      Segment.text rfl rfl ⟨rfl, rfl⟩ rfl rfl).1⟩

/-- C6: when the argument `message` is absent or is not a string, the handler
fails with `message parameter is required and must be a string` and performs
no event at all: no HTTP request is built or sent, the audit logger is not
called. -/
theorem handleAptosTool_invalid_argument (env : Env) (request : CallToolRequest)
    (hbad : ∀ s : String, request.arguments.lookup "message" ≠ some (Json.str s)) :
    (handleAptosTool env request).result =
      Except.error "message parameter is required and must be a string" ∧
    (handleAptosTool env request).events = [] := by
  unfold handleAptosTool
  cases h : request.arguments.lookup "message" with
  | none => exact ⟨rfl, rfl⟩
  | some v =>
    cases v with
    | str s => exact absurd h (hbad s)
    | _ => exact ⟨rfl, rfl⟩

/-- C6 witness: an empty argument map, and a `message` that is a number. -/
theorem handleAptosTool_invalid_argument_witness :
    ((handleAptosTool (scenarioEnv 200 pongBody none) ⟨"Aptos-TOOL", []⟩).result =
        Except.error "message parameter is required and must be a string" ∧
      (handleAptosTool (scenarioEnv 200 pongBody none) ⟨"Aptos-TOOL", []⟩).events = []) ∧
    ((handleAptosTool (scenarioEnv 200 pongBody none)
          ⟨"Aptos-TOOL", [("message", Json.num "42")]⟩).result =
        Except.error "message parameter is required and must be a string" ∧
      (handleAptosTool (scenarioEnv 200 pongBody none)
          ⟨"Aptos-TOOL", [("message", Json.num "42")]⟩).events = []) :=
  ⟨handleAptosTool_invalid_argument _ ⟨"Aptos-TOOL", []⟩ (fun _ h => Option.noConfusion h),
   handleAptosTool_invalid_argument _ ⟨"Aptos-TOOL", [("message", Json.num "42")]⟩
     (fun _ h => Json.noConfusion (Option.some.inj h))⟩

/-- C7: when the remote API answers 200 with a document holding a string at
the text path, the result of the handler is the same under any two file
systems, hence whether `logMCPRequest` succeeds or fails, and it is the
successful result with the extracted text, never an error. -/
theorem handleAptosTool_result_ignores_logger (env : Env) (fsFail fsOk : FsEnv)
    (request : CallToolRequest) (message body : String) (doc : Json) (s : String)
    (hmsg : request.arguments.lookup "message" = some (Json.str message))
    (hans : RemoteAnswers env message 200 body)
    (hdec : env.jsonDecode body = Except.ok doc)
    (htext : doc.valueAt textPath = some (Json.str s)) :
    (handleAptosTool { env with fs := fsFail } request).result =
      (handleAptosTool { env with fs := fsOk } request).result ∧
    (handleAptosTool { env with fs := fsFail } request).result =
      Except.ok ⟨[⟨"text", s⟩]⟩ := by
  have key : ∀ fs : FsEnv,
      (handleAptosTool { env with fs := fs } request).result = Except.ok ⟨[⟨"text", s⟩]⟩ := by
    intro fs
    rw [handleAptosTool_of_answer { env with fs := fs } request message body 200 hmsg hans]
    cases doc with
    | obj members =>
      simp [unmarshalMap, hdec, extractText_of_text members s htext]
    | _ => simp [textPath, Json.valueAt, Json.child] at htext
  exact ⟨(key fsFail).trans (key fsOk).symm, key fsFail⟩

/-- C7 witness: with an unwritable directory `logMCPRequest` returns an error,
with a writable one it returns nil, and the handler returns `"pong"` in both
cases. -/
theorem handleAptosTool_result_ignores_logger_witness :
    (logMCPRequest (scenarioFs (some "permission denied")) Json.null Json.null "Aptos-TOOL").1 =
      Except.error "failed to create logs directory: permission denied" ∧
    (logMCPRequest (scenarioFs none) Json.null Json.null "Aptos-TOOL").1 = Except.ok () ∧
    (handleAptosTool (scenarioEnv 200 pongBody (some "permission denied")) pingRequest).result =
      (handleAptosTool (scenarioEnv 200 pongBody none) pingRequest).result ∧
    (handleAptosTool (scenarioEnv 200 pongBody (some "permission denied")) pingRequest).result =
      Except.ok ⟨[⟨"text", "pong"⟩]⟩ :=
  ⟨rfl, rfl,
   handleAptosTool_result_ignores_logger (scenarioEnv 200 pongBody none)
     (scenarioFs (some "permission denied")) (scenarioFs none) pingRequest "ping" pongBody
     (Json.obj [("outputs", Json.arr [Json.obj [("outputs", Json.arr [Json.obj
        [("results", Json.obj [("message", Json.obj [("text", Json.str "pong")])])]])]])])
     "pong" rfl ⟨rfl, rfl⟩ rfl rfl⟩

/-- C8: in every invocation that returns an error `logMCPRequest` is not
called, and in every invocation that returns a result it is called exactly
once. -/
theorem handleAptosTool_auditLog_calls (env : Env) (request : CallToolRequest) :
    match (handleAptosTool env request).result with
    | Except.error _ => (handleAptosTool env request).auditLogCalls = 0
    | Except.ok _ => (handleAptosTool env request).auditLogCalls = 1 := by
  unfold handleAptosTool Outcome.auditLogCalls
  cases asString (request.arguments.lookup "message") with
  | none => rfl
  | some message =>
    dsimp only
    cases env.newRequest "POST" apiURL (reqBody env.printTable message) with
    | some err => rfl
    | none =>
      dsimp only
      cases env.clientDo apiURL "application/json" (reqBody env.printTable message) with
      | sendError err => rfl
      | readError status err => rfl
      | response statusCode respBody =>
        dsimp only
        by_cases hst : statusCode = 200
        · rw [if_neg (not_not.mpr hst)]
          cases unmarshalMap env.jsonDecode respBody with
          | error err => rfl
          | ok responseData =>
            dsimp only
            cases extractText responseData with
            | error err => rfl
            | ok result =>
              simp [List.filter, Event.isAuditLog, logMCPRequest_no_auditLog]
        · rw [if_pos hst]
          rfl

/-- C9: in sse mode `main` gives `sseServer.Start` the address `:8283`, whose
port is not the port 8282 of the base URL the server is configured with, of
the line it logs, and of the default URL of the test client. -/
theorem main_sse_listens_on_8283 :
    main none "sse" =
      Startup.serveSSE "http://localhost:8282"
        "=== SSE server starting, listening on port :8282 ===" ":8283" ∧
    portOf ":8283" = "8283" ∧
    portOf "http://localhost:8282" = "8282" ∧
    portOf testServerURL = "8282" ∧
    portOf ":8283" ≠ portOf "http://localhost:8282" := by
  decide

/-- C10 counterexample: the body of the concrete scenario and the same body
with the extra field `"score":-2.5E+400` beside `results` are two JSON objects
with the string `"pong"` at the text path, and with status 200 the handler
returns `"pong"` for the first and the JSON-parse error for the second. -/
theorem handleAptosTool_extra_number_changes_result :
    (∃ doc saved, parseJson deepOverflowBody = Except.ok (doc, saved) ∧
      doc.valueAt textPath = some (Json.str "pong")) ∧
    (∃ doc saved, parseJson pongBody = Except.ok (doc, saved) ∧
      doc.valueAt textPath = some (Json.str "pong")) ∧
    (handleAptosTool (scenarioEnv 200 pongBody none) pingRequest).result =
      Except.ok ⟨[⟨"text", "pong"⟩]⟩ ∧
    (handleAptosTool (scenarioEnv 200 deepOverflowBody none) pingRequest).result =
      Except.error ("Failed to parse response: " ++
        "json: cannot unmarshal number -2.5E+400 into Go value of type float64") :=
  ⟨⟨_, _, rfl, rfl⟩, ⟨_, _, rfl, rfl⟩, rfl, rfl⟩

/-- C10 amended: with `encoding/json` as the decoder, two invocations in which
the remote API answers 200 with bodies that `json.Unmarshal` decodes without
error into JSON objects that both hold the string `s` at
`outputs[0].outputs[0].results.message.text` return the same result, the text
`s`, whatever else the two objects contain. -/
theorem handleAptosTool_depends_on_text_only (env₁ env₂ : Env)
    (request₁ request₂ : CallToolRequest) (message₁ message₂ body₁ body₂ : String)
    (members₁ members₂ : List (String × Json)) (s : String)
    (hmsg₁ : request₁.arguments.lookup "message" = some (Json.str message₁))
    (hmsg₂ : request₂.arguments.lookup "message" = some (Json.str message₂))
    (hdecoder₁ : env₁.jsonDecode = decodeJson)
    (hdecoder₂ : env₂.jsonDecode = decodeJson)
    (hans₁ : RemoteAnswers env₁ message₁ 200 body₁)
    (hans₂ : RemoteAnswers env₂ message₂ 200 body₂)
    (hdec₁ : decodeJson body₁ = Except.ok (Json.obj members₁))
    (hdec₂ : decodeJson body₂ = Except.ok (Json.obj members₂))
    (htext₁ : (Json.obj members₁).valueAt textPath = some (Json.str s))
    (htext₂ : (Json.obj members₂).valueAt textPath = some (Json.str s)) :
    (handleAptosTool env₁ request₁).result = (handleAptosTool env₂ request₂).result ∧
    (handleAptosTool env₁ request₁).result = Except.ok ⟨[⟨"text", s⟩]⟩ := by
  have h₁ : (handleAptosTool env₁ request₁).result = Except.ok ⟨[⟨"text", s⟩]⟩ := by
    rw [handleAptosTool_of_answer env₁ request₁ message₁ body₁ 200 hmsg₁ hans₁, hdecoder₁]
    simp [unmarshalMap, hdec₁, extractText_of_text members₁ s htext₁]
  have h₂ : (handleAptosTool env₂ request₂).result = Except.ok ⟨[⟨"text", s⟩]⟩ := by
    rw [handleAptosTool_of_answer env₂ request₂ message₂ body₂ 200 hmsg₂ hans₂, hdecoder₂]
    simp [unmarshalMap, hdec₂, extractText_of_text members₂ s htext₂]
  exact ⟨h₁.trans h₂.symm, h₁⟩

/-- C10 amended, witness: the bare document of the concrete scenario and a
document with further array elements and extra fields at every level, numbers
within the range of `float64` among them, both with text `"pong"`. -/
theorem handleAptosTool_depends_on_text_only_witness :
    (handleAptosTool (scenarioEnv 200 pongBody none) pingRequest).result =
      (handleAptosTool (scenarioEnv 200
        "\x7b\"id\": 7, \"outputs\": [\x7b\"outputs\": [\x7b\"results\": \x7b\"message\": \x7b\"text\": \"pong\", \"sender\": \"AI\"\x7d, \"n\": 1e308\x7d, \"logs\": []\x7d, \x7b\"results\": 3\x7d], \"inputs\": \x7b\x7d\x7d, null]\x7d"
        none) pingRequest).result ∧
    (handleAptosTool (scenarioEnv 200 pongBody none) pingRequest).result =
      Except.ok ⟨[⟨"text", "pong"⟩]⟩ :=
  handleAptosTool_depends_on_text_only _ _ pingRequest pingRequest "ping" "ping" pongBody _
    [("outputs", Json.arr [Json.obj [("outputs", Json.arr [Json.obj
        [("results", Json.obj [("message", Json.obj [("text", Json.str "pong")])])]])]])]
    [("outputs", Json.arr [
        Json.obj [("inputs", Json.obj []),
          ("outputs", Json.arr [
            Json.obj [("logs", Json.arr []),
              ("results", Json.obj [("n", Json.num "1e308"),
                ("message", Json.obj [("sender", Json.str "AI"), ("text", Json.str "pong")])])],
            Json.obj [("results", Json.num "3")]])],
        Json.null]),
     ("id", Json.num "7")]
    "pong" rfl rfl rfl rfl ⟨rfl, rfl⟩ ⟨rfl, rfl⟩ rfl rfl rfl rfl

end ConstructAI
